import Mathlib

/-!
Shallow embedding of `packages/utils/src/time.ts` (sentry-javascript).

JavaScript numbers are modelled as rationals (ℚ). Clock reads are effectful
in the source, so the environment carries the wall clock (`Date.now`) and the
high-resolution counter (`performance.now`) as functions of an abstract call
instant; module-load-time computations receive the construction instant `t0`
explicitly. Absent / `undefined` values are `Option`; a throwing
`dynamicRequire` is an `Except.error`.
-/

namespace SentryTime

/-- Abstract call instants: each clock read happens at some instant. -/
abbrev Instant := Nat

/-- The deprecated `performance.timing` object, of which the source reads only
`navigationStart` (epoch milliseconds). -/
structure PerformanceTiming where
  navigationStart : ℚ
deriving DecidableEq

/-- The raw global `performance` object as the source sees it: `now` may be a
missing method, `timeOrigin` may be `undefined`, `timing` may be absent. -/
structure GlobalPerformance where
  now : Option (Instant → ℚ)
  timeOrigin : Option ℚ
  timing : Option PerformanceTiming

/-- The source's `Performance` interface: a wrapped or native handle with a
`now()` millisecond counter and a numeric `timeOrigin` in epoch milliseconds. -/
structure Performance where
  now : Instant → ℚ
  timeOrigin : ℚ

/-- The execution environment: the `isNodeEnv()` marker, the result of
`dynamicRequire(module, "perf_hooks").performance` (which may throw), the
browser global `performance` object (which may be absent), and the wall clock
`Date.now()` in epoch milliseconds as a function of the call instant. -/
structure Env where
  isNode : Bool
  nodePerf : Except String Performance
  globalPerformance : Option GlobalPerformance
  dateNow : Instant → ℚ

/-- `dateTimestampSource.nowSeconds`: `() => Date.now() / 1000`. -/
def dateTimestampSource (e : Env) : Instant → ℚ :=
  fun t => e.dateNow t / 1000

/-- `getBrowserPerformance()`: if the global `performance` is absent or lacks
`now`, return `undefined`; otherwise wrap it, replacing the native
`timeOrigin` with `Date.now() - performance.now()` computed at construction
instant `t0`. -/
def getBrowserPerformance (e : Env) (t0 : Instant) : Option Performance :=
  match e.globalPerformance with
  | none => none
  | some performance =>
    match performance.now with
    | none => none
    | some nowFn => some { now := nowFn, timeOrigin := e.dateNow t0 - nowFn t0 }

/-- `getNodePerformance()`: `dynamicRequire(module, "perf_hooks").performance`
inside a `try`; any thrown error yields `undefined`. -/
def getNodePerformance (e : Env) : Option Performance :=
  match e.nodePerf with
  | Except.ok p => some p
  | Except.error _ => none

/-- `platformPerformance`: `isNodeEnv() ? getNodePerformance() :
getBrowserPerformance()`, decided once at module load (instant `t0`). -/
def platformPerformance (e : Env) (t0 : Instant) : Option Performance :=
  if e.isNode then getNodePerformance e else getBrowserPerformance e t0

/-- `timestampSource`: `dateTimestampSource` unless `platformPerformance` is
defined, in which case `nowSeconds` is
`(platformPerformance.timeOrigin + platformPerformance.now()) / 1000`. -/
def timestampSource (e : Env) (t0 : Instant) : Instant → ℚ :=
  match platformPerformance e t0 with
  | none => dateTimestampSource e
  | some pp => fun t => (pp.timeOrigin + pp.now t) / 1000

/-- Exported `dateTimestampInSeconds`, destructured from
`dateTimestampSource`. -/
def dateTimestampInSeconds (e : Env) : Instant → ℚ :=
  dateTimestampSource e

/-- Exported `timestampInSeconds`, destructured from `timestampSource`. -/
def timestampInSeconds (e : Env) (t0 : Instant) : Instant → ℚ :=
  timestampSource e t0

/-- Exported `timestampWithMs`, destructured from the same `timestampSource`
under its backwards-compatible name. -/
def timestampWithMs (e : Env) (t0 : Instant) : Instant → ℚ :=
  timestampSource e t0

/-- Exported `usingPerformanceAPI`: `platformPerformance !== undefined`. -/
def usingPerformanceAPI (e : Env) (t0 : Instant) : Bool :=
  (platformPerformance e t0).isSome

/-- The last return of `browserPerformanceTimeOrigin`:
`(performance.timing && performance.timing.navigationStart) || Date.now()`,
with JavaScript truthiness (absent object and zero number are falsy). -/
def legacyNavigationStartFallback (performance : GlobalPerformance) (e : Env)
    (t : Instant) : ℚ :=
  match performance.timing with
  | none => e.dateNow t
  | some tm => if tm.navigationStart = 0 then e.dateNow t else tm.navigationStart

/-- Exported `browserPerformanceTimeOrigin`: `undefined` when the global
`performance` is absent; the native `timeOrigin` when truthy (defined and
non-zero); otherwise the legacy `navigationStart` / `Date.now()` fallback. -/
def browserPerformanceTimeOrigin (e : Env) (t : Instant) : Option ℚ :=
  match e.globalPerformance with
  | none => none
  | some performance =>
    match performance.timeOrigin with
    | some o =>
      if o = 0 then some (legacyNavigationStartFallback performance e t)
      else some o
    | none => some (legacyNavigationStartFallback performance e t)

/-- A browser-style environment (no Node marker) with the given global
`performance` fields and wall clock. -/
def browserEnv (nowFn : Option (Instant → ℚ)) (nto : Option ℚ)
    (tm : Option PerformanceTiming) (wall : Instant → ℚ) : Env :=
  { isNode := false
    nodePerf := Except.error "not a Node environment"
    globalPerformance := some { now := nowFn, timeOrigin := nto, timing := tm }
    dateNow := wall }

/-- C1: in the browser path the adapter's origin is computed at construction
time as `Date.now() - performance.now()`, ignoring any native `timeOrigin`;
with `now() = 1000` and wall clock `1,700,000,000,000` at construction, the
origin is `1,699,999,999,000` and `timestampInSeconds()` evaluated while
`now()` is still `1000` equals `1,700,000,000`. -/
theorem browser_origin_computed_from_wall_clock
    (nto : Option ℚ) (tm : Option PerformanceTiming)
    (nowFn wall : Instant → ℚ) (t0 : Instant)
    (hn : nowFn t0 = 1000) (hw : wall t0 = 1700000000000) :
    platformPerformance (browserEnv (some nowFn) nto tm wall) t0 =
      some { now := nowFn, timeOrigin := wall t0 - nowFn t0 } ∧
    wall t0 - nowFn t0 = 1699999999000 ∧
    timestampInSeconds (browserEnv (some nowFn) nto tm wall) t0 t0 =
      1700000000 := by
  refine ⟨rfl, by rw [hn, hw]; norm_num, ?_⟩
  simp only [timestampInSeconds, timestampSource, platformPerformance,
    browserEnv, getBrowserPerformance, hn, hw]
  norm_num [hn]

/-- Witness for C1 at a concrete environment: constant `now() = 1000`, wall
clock constantly `1,700,000,000,000`, native `timeOrigin` present (and thus
shown unused), construction instant `0`. -/
theorem browser_origin_computed_from_wall_clock_witness :
    platformPerformance
        (browserEnv (some fun _ => 1000) (some 42) none fun _ => 1700000000000)
        0 =
      some { now := fun _ => (1000 : ℚ),
             timeOrigin := (1700000000000 : ℚ) - 1000 } ∧
    (1700000000000 : ℚ) - 1000 = 1699999999000 ∧
    timestampInSeconds
        (browserEnv (some fun _ => 1000) (some 42) none fun _ => 1700000000000)
        0 0 =
      1700000000 :=
  browser_origin_computed_from_wall_clock (some 42) none
    (fun _ => 1000) (fun _ => 1700000000000) 0 rfl rfl

/-- C2: `browserPerformanceTimeOrigin` follows the fallback chain: absent
global `performance` gives an absent result; a present non-zero native
`timeOrigin` is returned; otherwise a present non-zero legacy
`navigationStart` is returned (in particular `1,600,000,000,000` when the
native origin is `0`); otherwise the current wall-clock milliseconds. -/
theorem browserPerformanceTimeOrigin_fallback_chain (e : Env) (t : Instant) :
    (e.globalPerformance = none → browserPerformanceTimeOrigin e t = none) ∧
    (∀ gp o, e.globalPerformance = some gp → gp.timeOrigin = some o → o ≠ 0 →
      browserPerformanceTimeOrigin e t = some o) ∧
    (∀ gp tm, e.globalPerformance = some gp →
      (gp.timeOrigin = none ∨ gp.timeOrigin = some 0) →
      gp.timing = some tm → tm.navigationStart ≠ 0 →
      browserPerformanceTimeOrigin e t = some tm.navigationStart) ∧
    (∀ gp, e.globalPerformance = some gp →
      (gp.timeOrigin = none ∨ gp.timeOrigin = some 0) →
      gp.timing = none →
      browserPerformanceTimeOrigin e t = some (e.dateNow t)) := by
  refine ⟨fun h => by simp [browserPerformanceTimeOrigin, h], ?_, ?_, ?_⟩
  · intro gp o hg ho hne
    simp [browserPerformanceTimeOrigin, hg, ho, hne]
  · intro gp tm hg ho htm hne
    rcases ho with ho | ho <;>
      simp [browserPerformanceTimeOrigin, legacyNavigationStartFallback,
        hg, ho, htm, hne]
  · intro gp hg ho htm
    rcases ho with ho | ho <;>
      simp [browserPerformanceTimeOrigin, legacyNavigationStartFallback,
        hg, ho, htm]

/-- Witness for C2: native `timeOrigin = 0` with `navigationStart =
1,600,000,000,000` yields `1,600,000,000,000`; with `timeOrigin` and
`timing` both absent, the wall-clock reading `77` is returned. -/
theorem browserPerformanceTimeOrigin_fallback_chain_witness :
    browserPerformanceTimeOrigin
        (browserEnv none (some 0) (some ⟨1600000000000⟩) fun _ => 77) 0 =
      some 1600000000000 ∧
    browserPerformanceTimeOrigin (browserEnv none none none fun _ => 77) 0 =
      some 77 := by
  constructor
  · exact (browserPerformanceTimeOrigin_fallback_chain
        (browserEnv none (some 0) (some ⟨1600000000000⟩) fun _ => 77)
        0).2.2.1 _ ⟨1600000000000⟩ rfl (Or.inr rfl) rfl (by norm_num)
  · exact (browserPerformanceTimeOrigin_fallback_chain
        (browserEnv none none none fun _ => 77) 0).2.2.2 _ rfl (Or.inl rfl) rfl

/-- C3: detection never propagates an error: whatever error the server-runtime
module acquisition throws, the probe returns `undefined` and the composed
provider binds `timestampInSeconds` to the wall-clock source. -/
theorem node_detection_failure_falls_back (e : Env) (t0 : Instant)
    (err : String) (hn : e.isNode = true) (he : e.nodePerf = Except.error err) :
    getNodePerformance e = none ∧
    platformPerformance e t0 = none ∧
    timestampSource e t0 = dateTimestampSource e ∧
    ∀ t, timestampInSeconds e t0 t = e.dateNow t / 1000 := by
  have h1 : getNodePerformance e = none := by
    simp [getNodePerformance, he]
  have h2 : platformPerformance e t0 = none := by
    simp [platformPerformance, hn, h1]
  refine ⟨h1, h2, ?_, ?_⟩
  · simp [timestampSource, h2]
  · intro t
    simp [timestampInSeconds, timestampSource, h2, dateTimestampSource]

/-- Witness for C3: a Node-marked environment whose `perf_hooks` acquisition
throws; `timestampInSeconds` returns the wall-clock reading over 1000. -/
theorem node_detection_failure_falls_back_witness :
    getNodePerformance
        ⟨true, Except.error "boom", none, fun _ => 250⟩ = none ∧
    platformPerformance
        ⟨true, Except.error "boom", none, fun _ => 250⟩ 0 = none ∧
    timestampSource ⟨true, Except.error "boom", none, fun _ => 250⟩ 0 =
      dateTimestampSource ⟨true, Except.error "boom", none, fun _ => 250⟩ ∧
    ∀ t, timestampInSeconds
        ⟨true, Except.error "boom", none, fun _ => 250⟩ 0 t =
      (250 : ℚ) / 1000 :=
  node_detection_failure_falls_back
    ⟨true, Except.error "boom", none, fun _ => 250⟩ 0 "boom" rfl rfl

/-- C4: when the probe finds no high-resolution clock, `usingPerformanceAPI`
is `false` and `timestampInSeconds` is the same function as
`dateTimestampInSeconds`. -/
theorem no_clock_binds_wall_clock (e : Env) (t0 : Instant)
    (h : platformPerformance e t0 = none) :
    usingPerformanceAPI e t0 = false ∧
    timestampInSeconds e t0 = dateTimestampInSeconds e := by
  refine ⟨by simp [usingPerformanceAPI, h], ?_⟩
  simp [timestampInSeconds, timestampSource, h, dateTimestampInSeconds]

/-- Witness for C4: a browser environment whose global `performance` lacks
`now`. -/
theorem no_clock_binds_wall_clock_witness :
    usingPerformanceAPI (browserEnv none none none fun _ => 9) 0 = false ∧
    timestampInSeconds (browserEnv none none none fun _ => 9) 0 =
      dateTimestampInSeconds (browserEnv none none none fun _ => 9) :=
  no_clock_binds_wall_clock (browserEnv none none none fun _ => 9) 0 rfl

/-- C5: when the probe finds a high-resolution clock, `usingPerformanceAPI` is
`true` and `timestampInSeconds` is monotone in the handle's `now()` readings:
`now() r1 ≤ now() r2` implies the first returned value is at most the
second. -/
theorem clock_bound_monotone (e : Env) (t0 : Instant) (h : Performance)
    (hp : platformPerformance e t0 = some h) :
    usingPerformanceAPI e t0 = true ∧
    ∀ t1 t2, h.now t1 ≤ h.now t2 →
      timestampInSeconds e t0 t1 ≤ timestampInSeconds e t0 t2 := by
  refine ⟨by simp [usingPerformanceAPI, hp], ?_⟩
  intro t1 t2 hle
  simp only [timestampInSeconds, timestampSource, hp]
  have h1000 : (0 : ℚ) < 1000 := by norm_num
  exact (div_le_div_iff_of_pos_right h1000).mpr (by linarith)

/-- Witness for C5: a Node environment with a strictly increasing counter;
instantiated at readings `t1 = 0`, `t2 = 1`. -/
theorem clock_bound_monotone_witness :
    usingPerformanceAPI
        ⟨true, Except.ok ⟨fun t => (t : ℚ), 500⟩, none, fun _ => 9⟩ 0 = true ∧
    timestampInSeconds
        ⟨true, Except.ok ⟨fun t => (t : ℚ), 500⟩, none, fun _ => 9⟩ 0 0 ≤
      timestampInSeconds
        ⟨true, Except.ok ⟨fun t => (t : ℚ), 500⟩, none, fun _ => 9⟩ 0 1 := by
  have h := clock_bound_monotone
    ⟨true, Except.ok ⟨fun t => (t : ℚ), 500⟩, none, fun _ => 9⟩ 0
    ⟨fun t => (t : ℚ), 500⟩ rfl
  exact ⟨h.1, h.2 0 1 (by norm_num)⟩

/-- C6: detection classifies the runtime first and probes only the
kind-appropriate API: under the Node marker only the server probe runs (a
failed server probe yields no clock even when a browser `performance` global
is present), and otherwise only the browser global is inspected, with a
`performance` object lacking `now` yielding no clock. -/
theorem detection_classifies_then_probes (t0 : Instant) :
    (∀ e : Env, e.isNode = true →
      platformPerformance e t0 = getNodePerformance e) ∧
    (∀ e : Env, e.isNode = true → ∀ err, e.nodePerf = Except.error err →
      platformPerformance e t0 = none) ∧
    (∀ e : Env, e.isNode = false →
      platformPerformance e t0 = getBrowserPerformance e t0) ∧
    (∀ e : Env, e.isNode = false → ∀ gp, e.globalPerformance = some gp →
      gp.now = none → platformPerformance e t0 = none) := by
  refine ⟨fun e hn => by simp [platformPerformance, hn],
    fun e hn err he => by simp [platformPerformance, hn, getNodePerformance, he],
    fun e hn => by simp [platformPerformance, hn], ?_⟩
  intro e hn gp hg hnow
  simp [platformPerformance, hn, getBrowserPerformance, hg, hnow]

/-- Witness for C6: a Node-marked environment whose server probe throws while
a fully usable browser `performance` global is present still yields no clock,
and a browser environment whose `performance` lacks `now` yields no clock. -/
theorem detection_classifies_then_probes_witness :
    platformPerformance
        ⟨true, Except.error "gone",
          some ⟨some fun _ => 3, some 5, none⟩, fun _ => 9⟩ 0 = none ∧
    platformPerformance (browserEnv none (some 5) none fun _ => 9) 0 = none := by
  constructor
  · exact (detection_classifies_then_probes 0).2.1
      ⟨true, Except.error "gone", some ⟨some fun _ => 3, some 5, none⟩,
        fun _ => 9⟩ rfl "gone" rfl
  · exact (detection_classifies_then_probes 0).2.2.2
      (browserEnv none (some 5) none fun _ => 9) rfl _ rfl rfl

/-- C7: `dateTimestampInSeconds()` always returns exactly the wall-clock
milliseconds divided by 1000 and enforces no monotonicity: a backward
wall-clock reading yields a strictly smaller returned value. -/
theorem dateTimestamp_is_raw_wall_clock (e : Env) :
    (∀ t, dateTimestampInSeconds e t = e.dateNow t / 1000) ∧
    (∀ t1 t2, e.dateNow t2 < e.dateNow t1 →
      dateTimestampInSeconds e t2 < dateTimestampInSeconds e t1) := by
  refine ⟨fun t => rfl, ?_⟩
  intro t1 t2 hlt
  simp only [dateTimestampInSeconds, dateTimestampSource]
  exact (div_lt_div_iff_of_pos_right (by norm_num)).mpr hlt

/-- Witness for C7: a wall clock that goes backward (100 ms at instant 0,
50 ms at instant 1); the backward reading is returned unmodified. -/
theorem dateTimestamp_is_raw_wall_clock_witness :
    dateTimestampInSeconds
        ⟨false, Except.error "e", none, fun t => if t = 0 then 100 else 50⟩ 1 <
      dateTimestampInSeconds
        ⟨false, Except.error "e", none, fun t => if t = 0 then 100 else 50⟩ 0 :=
  (dateTimestamp_is_raw_wall_clock
      ⟨false, Except.error "e", none, fun t => if t = 0 then 100 else 50⟩).2
    0 1 (by norm_num)

/-- C8: `usingPerformanceAPI` is `true` iff the probe produced a handle and
`timestampInSeconds` computes `(originMs + elapsedMs()) / 1000`, and `false`
iff no handle was produced and `timestampInSeconds` computes the wall-clock
formula. -/
theorem usingPerformanceAPI_iff_bound (e : Env) (t0 : Instant) :
    (usingPerformanceAPI e t0 = true ↔
      ∃ h : Performance, platformPerformance e t0 = some h ∧
        ∀ t, timestampInSeconds e t0 t = (h.timeOrigin + h.now t) / 1000) ∧
    (usingPerformanceAPI e t0 = false ↔
      platformPerformance e t0 = none ∧
        ∀ t, timestampInSeconds e t0 t = e.dateNow t / 1000) := by
  constructor
  · constructor
    · intro hu
      rcases hp : platformPerformance e t0 with _ | h
      · rw [usingPerformanceAPI, hp] at hu
        simp at hu
      · exact ⟨h, rfl, fun t => by
          simp [timestampInSeconds, timestampSource, hp]⟩
    · rintro ⟨h, hp, _⟩
      simp [usingPerformanceAPI, hp]
  · constructor
    · intro hu
      rcases hp : platformPerformance e t0 with _ | h
      · exact ⟨rfl, fun t => by
          simp [timestampInSeconds, timestampSource, hp, dateTimestampSource]⟩
      · rw [usingPerformanceAPI, hp] at hu
        simp at hu
    · rintro ⟨hp, _⟩
      simp [usingPerformanceAPI, hp]

/-- C9: `timestampWithMs` and `timestampInSeconds` are destructured from the
same `timestampSource` binding, so they are equal as functions in every
environment. -/
theorem timestampWithMs_alias (e : Env) (t0 : Instant) :
    timestampWithMs e t0 = timestampInSeconds e t0 :=
  rfl

/-- C10: whenever the global `performance` object exists, its `timeOrigin` is
absent or zero, and `performance.timing.navigationStart` is absent or zero
(including an absent `timing` object), `browserPerformanceTimeOrigin` is the
current wall-clock milliseconds, not 0 and not absent. -/
theorem zero_navigationStart_falls_back_to_date (e : Env) (t : Instant)
    (gp : GlobalPerformance) (hg : e.globalPerformance = some gp)
    (ho : gp.timeOrigin = none ∨ gp.timeOrigin = some 0)
    (hn : gp.timing = none ∨
      ∃ tm, gp.timing = some tm ∧ tm.navigationStart = 0) :
    browserPerformanceTimeOrigin e t = some (e.dateNow t) := by
  have hfall : legacyNavigationStartFallback gp e t = e.dateNow t := by
    rcases hn with hn | ⟨tm, htm, hns⟩
    · simp [legacyNavigationStartFallback, hn]
    · simp [legacyNavigationStartFallback, htm, hns]
  rcases ho with ho | ho <;>
    simp [browserPerformanceTimeOrigin, hg, ho, hfall]

/-- Witness for C10: native `timeOrigin = 0` and `navigationStart = 0`; the
result is the wall-clock reading `321`. -/
theorem zero_navigationStart_falls_back_to_date_witness :
    browserPerformanceTimeOrigin
        (browserEnv none (some 0) (some ⟨0⟩) fun _ => 321) 0 = some 321 :=
  zero_navigationStart_falls_back_to_date
    (browserEnv none (some 0) (some ⟨0⟩) fun _ => 321) 0 _ rfl
    (Or.inr rfl) (Or.inr ⟨⟨0⟩, rfl, rfl⟩)

end SentryTime
